import Mathlib

/-!
Verification development for the Enso Finance API skill bindings
(src/skills/enso/*.py): a shallow embedding of the request builders,
header construction, endpoint routing and the shared try/except
response-mapping block, together with theorems settling the spec claims.

Modelling conventions:
- Python dicts are association lists `List (String × PValue)` with the
  CPython insertion semantics: assigning an existing key overwrites its
  value in place (keeping its position); assigning a fresh key appends.
- Python truthiness on the argument types that occur in the sources is
  embedded by the `truthy*` helpers (None, 0, empty string, empty list
  are falsy).
- The module-level `base_url` constant comes from the package init
  module, which is not among the sources; since no claim depends on its
  value, every URL is a function of an explicit `u : String` parameter.
- The shared `async with httpx.AsyncClient() ... try/except` block that
  every binding repeats is embedded once as `handleResponse`, a function
  of the abstract network outcome; each binding instantiates it with its
  own catch-all behaviour (presence and message text taken from that
  binding's source).
-/

/-- HTTP method of a binding (`client.get` versus `client.post` in the sources). -/
inductive Method where
  | GET
  | POST
deriving DecidableEq, Repr

/-- Values that occur in the query/body dicts of the sources: strings, ints,
bools, Python `None`, lists of strings, and (for the `route` argument of
`get_shortcut_quote`, typed `List[dict]` in Python) lists of string-keyed
objects, narrowed here to string-valued fields since no binding inspects
them. -/
inductive PValue where
  | s (v : String)
  | i (v : Int)
  | b (v : Bool)
  | none
  | strList (v : List String)
  | objList (v : List (List (String × String)))
deriving DecidableEq, Repr

/-- The `Union[str, list[str]]` argument type of `underlying_tokens` in
`get_tokens_info` (src/skills/enso/tokens.py). -/
inductive StrOrList where
  | str (v : String)
  | list (v : List String)
deriving DecidableEq, Repr

/-- Python dict assignment `d[k] = v`: overwrite in place if the key exists,
else append at the end. -/
def dinsert (k : String) (v : PValue) : List (String × PValue) → List (String × PValue)
  | [] => [(k, v)]
  | (k1, v1) :: rest => if k1 = k then (k1, v) :: rest else (k1, v1) :: dinsert k v rest

/-- Lookup of a key in an embedded Python dict. -/
def dlookup (k : String) : List (String × PValue) → Option PValue
  | [] => Option.none
  | (k1, v1) :: rest => if k1 = k then some v1 else dlookup k rest

/-- Python truthiness of a `str` value. -/
def truthyStr (s : String) : Bool := s ≠ ""

/-- Python truthiness of a `str | None` value. -/
def truthyOptStr : Option String → Bool
  | Option.none => false
  | some s => s ≠ ""

/-- Python truthiness of an `int` value. -/
def truthyInt (n : Int) : Bool := n ≠ 0

/-- Python truthiness of an `int`-annotated argument that defaults to `None`. -/
def truthyOptInt : Option Int → Bool
  | Option.none => false
  | some n => n ≠ 0

/-- Embedding of a `str | None` Python value into a dict value. -/
def pOptStr : Option String → PValue
  | Option.none => PValue.none
  | some s => PValue.s s

/-- Embedding of an `int`-or-`None` Python value into a dict value. -/
def pOptInt : Option Int → PValue
  | Option.none => PValue.none
  | some n => PValue.i n

/-- Embedding of a `list[str] | None` Python value into a dict value. -/
def pOptStrList : Option (List String) → PValue
  | Option.none => PValue.none
  | some l => PValue.strList l

/-- Ambient mutable state a Python request builder could in principle read
(wall clock, a call counter / nonce source); the sources read none of it,
so every embedded builder threads it through unchanged. -/
structure World where
  clock : Nat
  counter : Nat
deriving DecidableEq, Repr

/-- Request descriptor: everything a binding hands to `client.get` or
`client.post` — method, URL, the header dict, the `params=` query dict and
the `json=` body dict (empty when the call passes no such argument). -/
structure Request where
  method : Method
  url : String
  headers : List (String × String)
  query : List (String × PValue)
  body : List (String × PValue)
deriving DecidableEq, Repr

/-- Arguments of `get_actions` (src/skills/enso/actions.py). -/
structure ActionsArgs where
  api_token : String
deriving DecidableEq, Repr

/-- Arguments of `post_bundle_info` (src/skills/enso/bundle.py). -/
structure BundleArgs where
  api_token : String
  chain_id : Int
  from_address : String
  routing_strategy : String
  receiver : String
  spender : String
deriving DecidableEq, Repr

/-- Arguments of `get_supported_networks` (src/skills/enso/networks.py);
`chainId` is annotated `str` there. -/
structure NetworksArgs where
  api_token : String
  name : String
  chainId : String
deriving DecidableEq, Repr

/-- Arguments of `get_token_prices` (src/skills/enso/prices.py). -/
structure PricesArgs where
  api_token : String
  chain_id : Int
  address : String
deriving DecidableEq, Repr

/-- Arguments of `get_protocols` (src/skills/enso/protocols.py). -/
structure ProtocolsArgs where
  api_token : String
  slug : Option String
deriving DecidableEq, Repr

/-- Arguments of `get_shortcut_route` (src/skills/enso/quote.py); `chain_id`
is annotated `int` with `default=None`, hence `Option Int`. -/
structure QuoteGetArgs where
  api_token : String
  chain_id : Option Int
  from_address : String
  routing_strategy : String
  token_in : String
  token_out : String
  amount_in : String
  fee : String
  fee_receiver : String
  disable_rfqs : Bool
  ignore_aggregators : Option String
  ignore_standards : Option String
deriving DecidableEq, Repr

/-- Arguments of `get_shortcut_quote` (src/skills/enso/quote.py, POST variant). -/
structure QuotePostArgs where
  api_token : String
  chain_id : Int
  from_address : String
  routing_strategy : String
  route : List (List (String × String))
  fee : List String
  fee_receiver : String
  disable_rfqs : Bool
  ignore_aggregators : Option (List String)
  block_number : Option String
deriving DecidableEq, Repr

/-- Arguments shared by `get_swap_tokens` and `post_swap_tokens`
(src/skills/enso/route.py); the two functions declare identical parameter
lists. -/
structure SwapArgs where
  api_token : String
  chain_id : Int
  from_address : String
  spender : String
  receiver : String
  token_in : List String
  amount_in : List String
  token_out : List String
  routing_strategy : String
  amount_out : List String
  min_amount_out : Option String
  slippage : String
  fee : List String
  fee_receiver : String
  disable_rfqs : Bool
  ignore_aggregators : List String
  ignore_standards : List String
  variable_estimates : Option String
deriving DecidableEq, Repr

/-- Arguments of `post_static_ipor_info` (src/skills/enso/static.py). -/
structure StaticArgs where
  api_token : String
  chain_id : Int
  address : String
deriving DecidableEq, Repr

/-- Arguments of `get_tokens_info` (src/skills/enso/tokens.py). -/
structure TokensArgs where
  api_token : String
  chain_id : Int
  underlying_tokens : StrOrList
  protocol_slug : Option String
  primary_address : Option String
  type : Option String
  page : Int
  per_page : Int
deriving DecidableEq, Repr

/-- Arguments of `get_wallet_info` (src/skills/enso/wallet.py); `chain_id`
defaults to `None`. -/
structure WalletArgs where
  api_token : String
  chain_id : Option Int
  from_address : String
  routing_strategy : String
deriving DecidableEq, Repr

/-- Arguments of `approve_wallet_token` (src/skills/enso/wallet.py). -/
structure ApproveArgs where
  api_token : String
  chain_id : Option Int
  from_address : String
  routing_strategy : String
  token_address : String
  amount : String
deriving DecidableEq, Repr

/-- Arguments of `approvals_wallet_token` (src/skills/enso/wallet.py). -/
structure ApprovalsArgs where
  api_token : String
  chain_id : Option Int
  from_address : String
  routing_strategy : String
deriving DecidableEq, Repr

/-- Arguments of `get_wallet_balances` (src/skills/enso/wallet.py). -/
structure BalancesArgs where
  api_token : String
  chain_id : Int
  eoa_address : String
  use_eoa : Bool
deriving DecidableEq, Repr

/-- Query dict of `get_shortcut_route` (src/skills/enso/quote.py lines 68-84):
nine unconditional entries, then two conditionals that BOTH test
`ignore_aggregators` (the second assigns `ignore_standards` under that
test). -/
def get_shortcut_route_params (a : QuoteGetArgs) : List (String × PValue) :=
  let params : List (String × PValue) :=
    [("chainId", pOptInt a.chain_id),
     ("fromAddress", PValue.s a.from_address),
     ("routingStrategy", PValue.s a.routing_strategy),
     ("amountIn", PValue.s a.amount_in),
     ("fee", PValue.s a.fee),
     ("feeReceiver", PValue.s a.fee_receiver),
     ("disableRFQs", PValue.b a.disable_rfqs),
     ("tokenIn", PValue.s a.token_in),
     ("tokenOut", PValue.s a.token_out)]
  let params :=
    if truthyOptStr a.ignore_aggregators then
      dinsert "ignoreAggregators" (pOptStr a.ignore_aggregators) params
    else params
  if truthyOptStr a.ignore_aggregators then
    dinsert "ignoreStandards" (pOptStr a.ignore_standards) params
  else params

/-- Body dict of `get_shortcut_quote` (src/skills/enso/quote.py lines 149-159):
all fields unconditional, optional arguments serialized even when `None`. -/
def get_shortcut_quote_data (a : QuotePostArgs) : List (String × PValue) :=
  [("chainId", PValue.i a.chain_id),
   ("fromAddress", PValue.s a.from_address),
   ("routingStrategy", PValue.s a.routing_strategy),
   ("route", PValue.objList a.route),
   ("fee", PValue.strList a.fee),
   ("feeReceiver", PValue.s a.fee_receiver),
   ("disableRFQs", PValue.b a.disable_rfqs),
   ("ignoreAggregators", pOptStrList a.ignore_aggregators),
   ("blockNumber", pOptStr a.block_number)]

/-- Body dict of `get_swap_tokens` (src/skills/enso/route.py lines 73-91):
all seventeen fields unconditional, optional arguments serialized even when
`None`. -/
def get_swap_tokens_data (a : SwapArgs) : List (String × PValue) :=
  [("chainId", PValue.i a.chain_id),
   ("fromAddress", PValue.s a.from_address),
   ("routingStrategy", PValue.s a.routing_strategy),
   ("receiver", PValue.s a.receiver),
   ("spender", PValue.s a.spender),
   ("amountIn", PValue.strList a.amount_in),
   ("amountOut", PValue.strList a.amount_out),
   ("minAmountOut", pOptStr a.min_amount_out),
   ("slippage", PValue.s a.slippage),
   ("fee", PValue.strList a.fee),
   ("feeReceiver", PValue.s a.fee_receiver),
   ("disableRFQs", PValue.b a.disable_rfqs),
   ("ignoreAggregators", PValue.strList a.ignore_aggregators),
   ("ignoreStandards", PValue.strList a.ignore_standards),
   ("tokenIn", PValue.strList a.token_in),
   ("tokenOut", PValue.strList a.token_out),
   ("variableEstimates", pOptStr a.variable_estimates)]

/-- Body dict of `post_swap_tokens` (src/skills/enso/route.py lines 171-189):
textually identical to the dict of `get_swap_tokens`. -/
def post_swap_tokens_data (a : SwapArgs) : List (String × PValue) :=
  [("chainId", PValue.i a.chain_id),
   ("fromAddress", PValue.s a.from_address),
   ("routingStrategy", PValue.s a.routing_strategy),
   ("receiver", PValue.s a.receiver),
   ("spender", PValue.s a.spender),
   ("amountIn", PValue.strList a.amount_in),
   ("amountOut", PValue.strList a.amount_out),
   ("minAmountOut", pOptStr a.min_amount_out),
   ("slippage", PValue.s a.slippage),
   ("fee", PValue.strList a.fee),
   ("feeReceiver", PValue.s a.fee_receiver),
   ("disableRFQs", PValue.b a.disable_rfqs),
   ("ignoreAggregators", PValue.strList a.ignore_aggregators),
   ("ignoreStandards", PValue.strList a.ignore_standards),
   ("tokenIn", PValue.strList a.token_in),
   ("tokenOut", PValue.strList a.token_out),
   ("variableEstimates", pOptStr a.variable_estimates)]

/-- Query dict of `get_tokens_info` (src/skills/enso/tokens.py lines 58-74):
three unconditional entries, three truthiness-guarded optional entries, then
the `underlying_tokens` isinstance dispatch (string passed through, list
comma-joined). -/
def get_tokens_info_params (a : TokensArgs) : List (String × PValue) :=
  let params : List (String × PValue) :=
    [("chainId", PValue.i a.chain_id),
     ("page", PValue.i a.page),
     ("perPage", PValue.i a.per_page)]
  let params :=
    if truthyOptStr a.protocol_slug then
      dinsert "protocolSlug" (pOptStr a.protocol_slug) params
    else params
  let params :=
    if truthyOptStr a.primary_address then
      dinsert "primaryAddress" (pOptStr a.primary_address) params
    else params
  let params :=
    if truthyOptStr a.type then dinsert "type" (pOptStr a.type) params
    else params
  match a.underlying_tokens with
  | StrOrList.str s => dinsert "underlyingTokens" (PValue.s s) params
  | StrOrList.list l => dinsert "underlyingTokens" (PValue.s (String.intercalate "," l)) params

/-- Query dict of `get_supported_networks` (src/skills/enso/networks.py lines
30-33): `name` and `chainId` sent unconditionally, even when empty. -/
def get_supported_networks_params (a : NetworksArgs) : List (String × PValue) :=
  [("name", PValue.s a.name), ("chainId", PValue.s a.chainId)]

/-- Query dict of `get_protocols` (src/skills/enso/protocols.py lines 36-39):
empty dict, `slug` added only when truthy. -/
def get_protocols_params (a : ProtocolsArgs) : List (String × PValue) :=
  if truthyOptStr a.slug then dinsert "slug" (pOptStr a.slug) [] else []

/-- Body dict of `post_bundle_info` (src/skills/enso/bundle.py lines 41-48):
four unconditional entries, `chainId` added only when truthy; the dict is
sent as the JSON body (`json=params`). -/
def post_bundle_info_params (a : BundleArgs) : List (String × PValue) :=
  let params : List (String × PValue) :=
    [("fromAddress", PValue.s a.from_address),
     ("routingStrategy", PValue.s a.routing_strategy),
     ("receiver", PValue.s a.receiver),
     ("spender", PValue.s a.spender)]
  if truthyInt a.chain_id then dinsert "chainId" (PValue.i a.chain_id) params else params

/-- Body dict of `post_static_ipor_info` (src/skills/enso/static.py line 34). -/
def post_static_ipor_info_data (a : StaticArgs) : List (String × PValue) :=
  [("chainId", PValue.i a.chain_id), ("address", PValue.s a.address)]

/-- Query dict of `get_wallet_info` (src/skills/enso/wallet.py lines 41-48):
`fromAddress` unconditional; `chainId` and `routingStrategy` added only when
truthy. -/
def get_wallet_info_params (a : WalletArgs) : List (String × PValue) :=
  let params : List (String × PValue) := [("fromAddress", PValue.s a.from_address)]
  let params :=
    if truthyOptInt a.chain_id then dinsert "chainId" (pOptInt a.chain_id) params else params
  if truthyStr a.routing_strategy then
    dinsert "routingStrategy" (PValue.s a.routing_strategy) params
  else params

/-- Query dict of `approve_wallet_token` (src/skills/enso/wallet.py lines
95-106): the full five-entry dict built unconditionally, then `chainId` and
`routingStrategy` conditionally re-assigned to the same values. -/
def approve_wallet_token_params (a : ApproveArgs) : List (String × PValue) :=
  let params : List (String × PValue) :=
    [("chainId", pOptInt a.chain_id),
     ("fromAddress", PValue.s a.from_address),
     ("routingStrategy", PValue.s a.routing_strategy),
     ("tokenAddress", PValue.s a.token_address),
     ("amount", PValue.s a.amount)]
  let params :=
    if truthyOptInt a.chain_id then dinsert "chainId" (pOptInt a.chain_id) params else params
  if truthyStr a.routing_strategy then
    dinsert "routingStrategy" (PValue.s a.routing_strategy) params
  else params

/-- Variant of `approve_wallet_token_params` with the two trailing
conditional blocks removed, for the dead-code comparison of the spec. -/
def approve_wallet_token_params_noCond (a : ApproveArgs) : List (String × PValue) :=
  [("chainId", pOptInt a.chain_id),
   ("fromAddress", PValue.s a.from_address),
   ("routingStrategy", PValue.s a.routing_strategy),
   ("tokenAddress", PValue.s a.token_address),
   ("amount", PValue.s a.amount)]

/-- Query dict of `approvals_wallet_token` (src/skills/enso/wallet.py lines
149-157): only `chainId` and `fromAddress` built unconditionally; the
conditional on `routing_strategy` ADDS a key absent from the initial dict. -/
def approvals_wallet_token_params (a : ApprovalsArgs) : List (String × PValue) :=
  let params : List (String × PValue) :=
    [("chainId", pOptInt a.chain_id), ("fromAddress", PValue.s a.from_address)]
  let params :=
    if truthyOptInt a.chain_id then dinsert "chainId" (pOptInt a.chain_id) params else params
  if truthyStr a.routing_strategy then
    dinsert "routingStrategy" (PValue.s a.routing_strategy) params
  else params

/-- Variant of `approvals_wallet_token_params` with the two trailing
conditional blocks removed, for the dead-code comparison of the spec. -/
def approvals_wallet_token_params_noCond (a : ApprovalsArgs) : List (String × PValue) :=
  [("chainId", pOptInt a.chain_id), ("fromAddress", PValue.s a.from_address)]

/-- Query dict of `get_wallet_balances` (src/skills/enso/wallet.py lines
204-208): three entries, all unconditional. -/
def get_wallet_balances_params (a : BalancesArgs) : List (String × PValue) :=
  [("chainId", PValue.i a.chain_id),
   ("eoaAddress", PValue.s a.eoa_address),
   ("useEoa", PValue.b a.use_eoa)]

/-- Request of `get_actions` (src/skills/enso/actions.py lines 23-31):
GET `base_url + "/actions"`, no query, accept and bearer headers. -/
def get_actions_request (u : String) (a : ActionsArgs) : Request :=
  { method := Method.GET
    url := u ++ "/actions"
    headers := [("accept", "application/json"), ("Authorization", "Bearer " ++ a.api_token)]
    query := []
    body := [] }

/-- Request of `post_bundle_info` (src/skills/enso/bundle.py lines 34-52):
POST `base_url + "/shortcuts/bundle"` with a JSON body. -/
def post_bundle_info_request (u : String) (a : BundleArgs) : Request :=
  { method := Method.POST
    url := u ++ "/shortcuts/bundle"
    headers := [("accept", "application/json"),
                ("Authorization", "Bearer " ++ a.api_token),
                ("Content-Type", "application/json")]
    query := []
    body := post_bundle_info_params a }

/-- Request of `get_supported_networks` (src/skills/enso/networks.py lines
25-37). -/
def get_supported_networks_request (u : String) (a : NetworksArgs) : Request :=
  { method := Method.GET
    url := u ++ "/networks"
    headers := [("accept", "application/json"), ("Authorization", "Bearer " ++ a.api_token)]
    query := get_supported_networks_params a
    body := [] }

/-- Request of `get_token_prices` (src/skills/enso/prices.py lines 33-41):
both parameters embedded in the path by the f-string. -/
def get_token_prices_request (u : String) (a : PricesArgs) : Request :=
  { method := Method.GET
    url := u ++ "/shortcuts/route/" ++ toString a.chain_id ++ "/" ++ a.address
    headers := [("accept", "application/json"), ("Authorization", "Bearer " ++ a.api_token)]
    query := []
    body := [] }

/-- Request of `get_protocols` (src/skills/enso/protocols.py lines 30-43). -/
def get_protocols_request (u : String) (a : ProtocolsArgs) : Request :=
  { method := Method.GET
    url := u ++ "/protocols"
    headers := [("accept", "application/json"), ("Authorization", "Bearer " ++ a.api_token)]
    query := get_protocols_params a
    body := [] }

/-- Request of `get_shortcut_route` (src/skills/enso/quote.py lines 62-88):
GET `base_url + "/shortcuts/quote"`. -/
def get_shortcut_route_request (u : String) (a : QuoteGetArgs) : Request :=
  { method := Method.GET
    url := u ++ "/shortcuts/quote"
    headers := [("accept", "application/json"), ("Authorization", "Bearer " ++ a.api_token)]
    query := get_shortcut_route_params a
    body := [] }

/-- Request of `get_shortcut_quote` (src/skills/enso/quote.py lines 142-163):
POST `base_url + "/shortcuts/quote"` with a JSON body. -/
def get_shortcut_quote_request (u : String) (a : QuotePostArgs) : Request :=
  { method := Method.POST
    url := u ++ "/shortcuts/quote"
    headers := [("accept", "application/json"),
                ("Authorization", "Bearer " ++ a.api_token),
                ("Content-Type", "application/json")]
    query := []
    body := get_shortcut_quote_data a }

/-- Request of `get_swap_tokens` (src/skills/enso/route.py lines 66-95):
despite its name the function calls `client.post`, so the method is POST. -/
def get_swap_tokens_request (u : String) (a : SwapArgs) : Request :=
  { method := Method.POST
    url := u ++ "/shortcuts/route"
    headers := [("accept", "application/json"),
                ("Authorization", "Bearer " ++ a.api_token),
                ("Content-Type", "application/json")]
    query := []
    body := get_swap_tokens_data a }

/-- Request of `post_swap_tokens` (src/skills/enso/route.py lines 164-193). -/
def post_swap_tokens_request (u : String) (a : SwapArgs) : Request :=
  { method := Method.POST
    url := u ++ "/shortcuts/route"
    headers := [("accept", "application/json"),
                ("Authorization", "Bearer " ++ a.api_token),
                ("Content-Type", "application/json")]
    query := []
    body := post_swap_tokens_data a }

/-- Request of `post_static_ipor_info` (src/skills/enso/static.py lines
27-38). -/
def post_static_ipor_info_request (u : String) (a : StaticArgs) : Request :=
  { method := Method.POST
    url := u ++ "/static/ipor"
    headers := [("accept", "application/json"),
                ("Authorization", "Bearer " ++ a.api_token),
                ("Content-Type", "application/json")]
    query := []
    body := post_static_ipor_info_data a }

/-- Request of `get_tokens_info` (src/skills/enso/tokens.py lines 52-78). -/
def get_tokens_info_request (u : String) (a : TokensArgs) : Request :=
  { method := Method.GET
    url := u ++ "/tokens"
    headers := [("accept", "application/json"), ("Authorization", "Bearer " ++ a.api_token)]
    query := get_tokens_info_params a
    body := [] }

/-- Request of `get_wallet_info` (src/skills/enso/wallet.py lines 35-52). -/
def get_wallet_info_request (u : String) (a : WalletArgs) : Request :=
  { method := Method.GET
    url := u ++ "/wallet"
    headers := [("accept", "application/json"), ("Authorization", "Bearer " ++ a.api_token)]
    query := get_wallet_info_params a
    body := [] }

/-- Request of `approve_wallet_token` (src/skills/enso/wallet.py lines
89-110). -/
def approve_wallet_token_request (u : String) (a : ApproveArgs) : Request :=
  { method := Method.GET
    url := u ++ "/wallet/approve"
    headers := [("accept", "application/json"), ("Authorization", "Bearer " ++ a.api_token)]
    query := approve_wallet_token_params a
    body := [] }

/-- Request of `approvals_wallet_token` (src/skills/enso/wallet.py lines
143-161). -/
def approvals_wallet_token_request (u : String) (a : ApprovalsArgs) : Request :=
  { method := Method.GET
    url := u ++ "/wallet/approvals"
    headers := [("accept", "application/json"), ("Authorization", "Bearer " ++ a.api_token)]
    query := approvals_wallet_token_params a
    body := [] }

/-- Request of `get_wallet_balances` (src/skills/enso/wallet.py lines
198-212). -/
def get_wallet_balances_request (u : String) (a : BalancesArgs) : Request :=
  { method := Method.GET
    url := u ++ "/wallet/balances"
    headers := [("accept", "application/json"), ("Authorization", "Bearer " ++ a.api_token)]
    query := get_wallet_balances_params a
    body := [] }

/-- World-threaded invocation of `get_actions`: the source body reads no
clock, counter, global mutable or random state while building the request,
so the world passes through untouched. The same holds for every binding
below; each `*_call` is the stateful embedding of the corresponding source
function up to the point where the request is handed to the transport. -/
def get_actions_call (w : World) (u : String) (a : ActionsArgs) : Request × World :=
  (get_actions_request u a, w)

/-- World-threaded invocation of `post_bundle_info`. -/
def post_bundle_info_call (w : World) (u : String) (a : BundleArgs) : Request × World :=
  (post_bundle_info_request u a, w)

/-- World-threaded invocation of `get_supported_networks`. -/
def get_supported_networks_call (w : World) (u : String) (a : NetworksArgs) : Request × World :=
  (get_supported_networks_request u a, w)

/-- World-threaded invocation of `get_token_prices`. -/
def get_token_prices_call (w : World) (u : String) (a : PricesArgs) : Request × World :=
  (get_token_prices_request u a, w)

/-- World-threaded invocation of `get_protocols`. -/
def get_protocols_call (w : World) (u : String) (a : ProtocolsArgs) : Request × World :=
  (get_protocols_request u a, w)

/-- World-threaded invocation of `get_shortcut_route`. -/
def get_shortcut_route_call (w : World) (u : String) (a : QuoteGetArgs) : Request × World :=
  (get_shortcut_route_request u a, w)

/-- World-threaded invocation of `get_shortcut_quote`. -/
def get_shortcut_quote_call (w : World) (u : String) (a : QuotePostArgs) : Request × World :=
  (get_shortcut_quote_request u a, w)

/-- World-threaded invocation of `get_swap_tokens`. -/
def get_swap_tokens_call (w : World) (u : String) (a : SwapArgs) : Request × World :=
  (get_swap_tokens_request u a, w)

/-- World-threaded invocation of `post_swap_tokens`. -/
def post_swap_tokens_call (w : World) (u : String) (a : SwapArgs) : Request × World :=
  (post_swap_tokens_request u a, w)

/-- World-threaded invocation of `post_static_ipor_info`. -/
def post_static_ipor_info_call (w : World) (u : String) (a : StaticArgs) : Request × World :=
  (post_static_ipor_info_request u a, w)

/-- World-threaded invocation of `get_tokens_info`. -/
def get_tokens_info_call (w : World) (u : String) (a : TokensArgs) : Request × World :=
  (get_tokens_info_request u a, w)

/-- World-threaded invocation of `get_wallet_info`. -/
def get_wallet_info_call (w : World) (u : String) (a : WalletArgs) : Request × World :=
  (get_wallet_info_request u a, w)

/-- World-threaded invocation of `approve_wallet_token`. -/
def approve_wallet_token_call (w : World) (u : String) (a : ApproveArgs) : Request × World :=
  (approve_wallet_token_request u a, w)

/-- World-threaded invocation of `approvals_wallet_token`. -/
def approvals_wallet_token_call (w : World) (u : String) (a : ApprovalsArgs) : Request × World :=
  (approvals_wallet_token_request u a, w)

/-- World-threaded invocation of `get_wallet_balances`. -/
def get_wallet_balances_call (w : World) (u : String) (a : BalancesArgs) : Request × World :=
  (get_wallet_balances_request u a, w)

/-- Exceptions that can escape a binding: the generic `Exception` the
handlers raise, the `AttributeError` raised when an attribute lookup fails,
and the JSON decode error `response.json()` raises on an undecodable 2xx
body (a `ValueError` subclass, outside the `httpx.HTTPError` hierarchy). -/
inductive PyExc where
  | attributeError (msg : String)
  | genericException (msg : String)
  | jsonDecodeError (msg : String)
deriving DecidableEq, Repr

/-- Abstract outcome of the single network call a binding performs:
either the transport delivered a response (with a status code and, when the
body decodes as JSON, its decoded value, abstracted to a `String`), or the
call failed at transport level (DNS, connection reset, timeout) with a
diagnostic. -/
inductive HttpOutcome where
  | response (status : Nat) (json : Option String)
  | transportFailure (diag : String)
deriving DecidableEq, Repr

/-- What the caller of a binding observes: the decoded JSON returned
normally, a formatted error string returned normally (the catch-all
fallback of several bindings), or a raised exception. -/
inductive CallOutcome where
  | returnedJson (v : String)
  | returnedString (v : String)
  | raised (e : PyExc)
deriving DecidableEq, Repr

/-- httpx `Response.is_success`, the test behind `raise_for_status`:
status codes 200-299 are successful. -/
def is_success (status : Nat) : Bool := 200 ≤ status && status < 300

/-- Attributes defined on `httpx.HTTPStatusError` instances: the
constructor stores `request` and `response` (plus the inherited `args`);
there is no `status_code` attribute — the status code lives on the
`response` object. -/
def httpStatusErrorAttrs : List String := ["args", "request", "response"]

/-- Python attribute lookup against a fixed attribute table. -/
def hasAttr (attrs : List String) (name : String) : Bool := attrs.contains name

/-- Message of the AttributeError raised when the except-handler evaluates
`e.status_code` on an `httpx.HTTPStatusError` (quotation marks of the
CPython message elided). -/
def statusAttrMsg : String := "HTTPStatusError object has no attribute status_code"

/-- Abstract `str()` of the JSON decode error raised by `response.json()`
on an undecodable body. -/
def jsonDecodeMsg : String := "Expecting value: line 1 column 1 (char 0)"

/-- The try/except block every binding repeats (e.g.
src/skills/enso/actions.py lines 29-41), as a function of the abstract
network outcome. `catchAll` is `some p` when the binding ends with
`except Exception as e: return p + str(e)` and `Option.none` when it has no
such clause. Faithfully to Python semantics:
- a transport failure raised by the client call is an `httpx.TransportError`,
  a subclass of `httpx.HTTPError` but not of `httpx.HTTPStatusError`, so it
  reaches the `except httpx.HTTPError` clause, which raises
  `Exception("An HTTP error occurred: " + str(e))`;
- a non-2xx status makes `raise_for_status` raise `httpx.HTTPStatusError`;
  its handler evaluates the f-string operand `e.status_code`, and because
  that attribute is absent the lookup raises `AttributeError` INSIDE the
  handler — an exception raised in an except-handler is not caught by the
  sibling except clauses of the same try statement, so it propagates to the
  caller no matter whether the binding has a catch-all clause;
- an undecodable 2xx body makes `response.json()` raise a JSON decode
  error, which is not an `httpx.HTTPError`; it reaches the catch-all when
  present (returning a formatted string as the normal result) and
  propagates otherwise. -/
def handleResponse (catchAll : Option String) : HttpOutcome → CallOutcome
  | HttpOutcome.transportFailure diag =>
      CallOutcome.raised (PyExc.genericException ("An HTTP error occurred: " ++ diag))
  | HttpOutcome.response status json =>
      if is_success status then
        match json with
        | some v => CallOutcome.returnedJson v
        | Option.none =>
            match catchAll with
            | some p => CallOutcome.returnedString (p ++ jsonDecodeMsg)
            | Option.none => CallOutcome.raised (PyExc.jsonDecodeError jsonDecodeMsg)
      else
        if hasAttr httpStatusErrorAttrs "status_code" then
          CallOutcome.raised
            (PyExc.genericException ("API request failed with status code: " ++ toString status))
        else
          CallOutcome.raised (PyExc.attributeError statusAttrMsg)

/-- Response mapping of `get_actions`: catch-all present
(src/skills/enso/actions.py lines 40-41). -/
def get_actions_handle : HttpOutcome → CallOutcome :=
  handleResponse (some "error getting the enso actions ")

/-- Response mapping of `post_bundle_info`: no catch-all
(src/skills/enso/bundle.py lines 50-60). -/
def post_bundle_info_handle : HttpOutcome → CallOutcome :=
  handleResponse Option.none

/-- Response mapping of `get_supported_networks`: no catch-all
(src/skills/enso/networks.py lines 35-45). -/
def get_supported_networks_handle : HttpOutcome → CallOutcome :=
  handleResponse Option.none

/-- Response mapping of `get_token_prices`: catch-all present
(src/skills/enso/prices.py lines 50-51). -/
def get_token_prices_handle : HttpOutcome → CallOutcome :=
  handleResponse (some "error getting the enso tokens ")

/-- Response mapping of `get_protocols`: catch-all present
(src/skills/enso/protocols.py lines 52-53). -/
def get_protocols_handle : HttpOutcome → CallOutcome :=
  handleResponse (some "error getting the enso tokens ")

/-- Response mapping of `get_shortcut_route`: catch-all present
(src/skills/enso/quote.py lines 97-98). -/
def get_shortcut_route_handle : HttpOutcome → CallOutcome :=
  handleResponse (some "error getting swap route ")

/-- Response mapping of `get_shortcut_quote`: catch-all present
(src/skills/enso/quote.py lines 172-173). -/
def get_shortcut_quote_handle : HttpOutcome → CallOutcome :=
  handleResponse (some "error getting swap route ")

/-- Response mapping of `get_swap_tokens`: catch-all present
(src/skills/enso/route.py lines 104-105). -/
def get_swap_tokens_handle : HttpOutcome → CallOutcome :=
  handleResponse (some "error getting swap route ")

/-- Response mapping of `post_swap_tokens`: catch-all present
(src/skills/enso/route.py lines 202-203). -/
def post_swap_tokens_handle : HttpOutcome → CallOutcome :=
  handleResponse (some "error getting swap route ")

/-- Response mapping of `post_static_ipor_info`: no catch-all
(src/skills/enso/static.py lines 36-46). -/
def post_static_ipor_info_handle : HttpOutcome → CallOutcome :=
  handleResponse Option.none

/-- Response mapping of `get_tokens_info`: no catch-all
(src/skills/enso/tokens.py lines 76-86). -/
def get_tokens_info_handle : HttpOutcome → CallOutcome :=
  handleResponse Option.none

/-- Response mapping of `get_wallet_info`: catch-all present
(src/skills/enso/wallet.py lines 61-62). -/
def get_wallet_info_handle : HttpOutcome → CallOutcome :=
  handleResponse (some "error getting the enso wallet ")

/-- Response mapping of `approve_wallet_token`: catch-all present
(src/skills/enso/wallet.py lines 119-120). -/
def approve_wallet_token_handle : HttpOutcome → CallOutcome :=
  handleResponse (some "error getting the enso wallet ")

/-- Response mapping of `approvals_wallet_token`: catch-all present
(src/skills/enso/wallet.py lines 170-171). -/
def approvals_wallet_token_handle : HttpOutcome → CallOutcome :=
  handleResponse (some "error getting the enso wallet ")

/-- Response mapping of `get_wallet_balances`: catch-all present
(src/skills/enso/wallet.py lines 221-222). -/
def get_wallet_balances_handle : HttpOutcome → CallOutcome :=
  handleResponse (some "error getting the enso wallet ")

/-- Modelled from the spec: the HTTP method the §4.1 table lists for the
`get_swap_tokens` binding — the row reads "get swap tokens (GET) /
post swap tokens (POST) | GET/POST | /shortcuts/route", i.e. GET for the
first function. Kept separate from the source-derived request so the two
can be compared. -/
def specTableGetSwapTokensMethod : Method := Method.GET

theorem dlookup_dinsert_self (k : String) (v : PValue) (d : List (String × PValue)) :
    dlookup k (dinsert k v d) = some v := by
  induction d with
  | nil => simp [dinsert, dlookup]
  | cons hd tl ih =>
      obtain ⟨k1, v1⟩ := hd
      by_cases h : k1 = k
      · simp [dinsert, dlookup, h]
      · simp [dinsert, dlookup, h, ih]

theorem dlookup_dinsert_ne (k k2 : String) (v : PValue) (d : List (String × PValue))
    (h : k2 ≠ k) : dlookup k (dinsert k2 v d) = dlookup k d := by
  induction d with
  | nil => simp [dinsert, dlookup, h]
  | cons hd tl ih =>
      obtain ⟨k1, v1⟩ := hd
      by_cases h1 : k1 = k2
      · subst h1
        simp [dinsert, dlookup, h]
      · simp [dinsert, dlookup, h1, ih]

theorem hasAttr_status_code_false : hasAttr httpStatusErrorAttrs "status_code" = false := by
  decide

/-- Claim C4 (confirmed): in `get_shortcut_route`, the query contains
`ignoreAggregators` exactly when `ignore_aggregators` is truthy, and
contains `ignoreStandards` — bound to the value of `ignore_standards`,
possibly `None` — exactly when `ignore_aggregators` is truthy, so
`ignoreStandards` inclusion is independent of `ignore_standards` itself. -/
theorem ignoreStandards_gated_on_ignoreAggregators (a : QuoteGetArgs) :
    (dlookup "ignoreAggregators" (get_shortcut_route_params a)).isSome
        = truthyOptStr a.ignore_aggregators
  ∧ dlookup "ignoreStandards" (get_shortcut_route_params a)
        = (if truthyOptStr a.ignore_aggregators then some (pOptStr a.ignore_standards)
           else Option.none) := by
  unfold get_shortcut_route_params
  by_cases h : truthyOptStr a.ignore_aggregators <;>
    simp [h, dlookup_dinsert_self, dlookup_dinsert_ne, dlookup]

/-- Claim C8 (confirmed): in `get_tokens_info`, a string-valued
`underlying_tokens` is serialized unchanged and a list is comma-joined;
in particular "0xAA" maps to "0xAA" and the list of "0xAA" and "0xBB"
maps to "0xAA,0xBB". -/
theorem underlying_tokens_coercion :
    (∀ (t : String) (ci : Int) (ps pa ty : Option String) (pg pp : Int) (s : String),
        dlookup "underlyingTokens"
            (get_tokens_info_params ⟨t, ci, StrOrList.str s, ps, pa, ty, pg, pp⟩)
          = some (PValue.s s))
  ∧ (∀ (t : String) (ci : Int) (ps pa ty : Option String) (pg pp : Int) (l : List String),
        dlookup "underlyingTokens"
            (get_tokens_info_params ⟨t, ci, StrOrList.list l, ps, pa, ty, pg, pp⟩)
          = some (PValue.s (String.intercalate "," l)))
  ∧ dlookup "underlyingTokens"
        (get_tokens_info_params
          ⟨"t", 1, StrOrList.str "0xAA", Option.none, Option.none, Option.none, 1, 100⟩)
      = some (PValue.s "0xAA")
  ∧ dlookup "underlyingTokens"
        (get_tokens_info_params
          ⟨"t", 1, StrOrList.list ["0xAA", "0xBB"], Option.none, Option.none, Option.none, 1, 100⟩)
      = some (PValue.s "0xAA,0xBB") := by
  refine ⟨?_, ?_, by decide, by decide⟩ <;>
    intros <;> simp [get_tokens_info_params, dlookup_dinsert_self]

/-- Claim C3 (counterexample): contrary to "falsy/empty/None optional
parameters are never serialized", `get_swap_tokens` builds its JSON body
unconditionally, so with `min_amount_out = None` the serialized body still
contains the `minAmountOut` field, bound to `None` (JSON `null`). -/
theorem optional_none_serialized_counterexample :
    dlookup "minAmountOut"
        (get_swap_tokens_data
          { api_token := "t", chain_id := 1, from_address := "0xF", spender := "0xS",
            receiver := "0xR", token_in := ["0xA"], amount_in := ["1"],
            token_out := ["0xB"], routing_strategy := "router", amount_out := ["1"],
            min_amount_out := Option.none, slippage := "50", fee := ["0"],
            fee_receiver := "0xC", disable_rfqs := false, ignore_aggregators := [],
            ignore_standards := [], variable_estimates := Option.none })
      = some PValue.none := by
  decide

/-- Claim C3 (corrected): for the truthiness-guarded optional parameters —
`protocolSlug`, `primaryAddress` and `type` of `get_tokens_info`, `slug` of
`get_protocols`, `chainId` and `routingStrategy` of `get_wallet_info`, and
`chainId` of `post_bundle_info` — the serialized field is present exactly
when the argument is truthy, and then carries the argument under its
camel-case key; bindings that build their payload unconditionally do not
obey the rule: `get_swap_tokens` serializes `minAmountOut` (and
`variableEstimates`) even when the argument is `None`. -/
theorem guarded_optionals_inclusion_amended (a : TokensArgs) (b : ProtocolsArgs)
    (c : WalletArgs) (d : BundleArgs) (e : SwapArgs) :
    dlookup "protocolSlug" (get_tokens_info_params a)
        = (if truthyOptStr a.protocol_slug then some (pOptStr a.protocol_slug)
           else Option.none)
  ∧ dlookup "primaryAddress" (get_tokens_info_params a)
        = (if truthyOptStr a.primary_address then some (pOptStr a.primary_address)
           else Option.none)
  ∧ dlookup "type" (get_tokens_info_params a)
        = (if truthyOptStr a.type then some (pOptStr a.type) else Option.none)
  ∧ dlookup "slug" (get_protocols_params b)
        = (if truthyOptStr b.slug then some (pOptStr b.slug) else Option.none)
  ∧ dlookup "chainId" (get_wallet_info_params c)
        = (if truthyOptInt c.chain_id then some (pOptInt c.chain_id) else Option.none)
  ∧ dlookup "routingStrategy" (get_wallet_info_params c)
        = (if truthyStr c.routing_strategy then some (PValue.s c.routing_strategy)
           else Option.none)
  ∧ dlookup "chainId" (post_bundle_info_params d)
        = (if truthyInt d.chain_id then some (PValue.i d.chain_id) else Option.none)
  ∧ dlookup "minAmountOut" (get_swap_tokens_data e) = some (pOptStr e.min_amount_out)
  ∧ dlookup "variableEstimates" (get_swap_tokens_data e)
        = some (pOptStr e.variable_estimates) := by
  refine ⟨?_, ?_, ?_, ?_, ?_, ?_, ?_, ?_, ?_⟩
  · rcases a with ⟨t, ci, ut, ps, pa, ty, pg, pp⟩
    cases ut <;> by_cases h1 : truthyOptStr ps <;> by_cases h2 : truthyOptStr pa <;>
      by_cases h3 : truthyOptStr ty <;>
      simp [get_tokens_info_params, h1, h2, h3, dlookup_dinsert_self,
            dlookup_dinsert_ne, dlookup]
  · rcases a with ⟨t, ci, ut, ps, pa, ty, pg, pp⟩
    cases ut <;> by_cases h1 : truthyOptStr ps <;> by_cases h2 : truthyOptStr pa <;>
      by_cases h3 : truthyOptStr ty <;>
      simp [get_tokens_info_params, h1, h2, h3, dlookup_dinsert_self,
            dlookup_dinsert_ne, dlookup]
  · rcases a with ⟨t, ci, ut, ps, pa, ty, pg, pp⟩
    cases ut <;> by_cases h1 : truthyOptStr ps <;> by_cases h2 : truthyOptStr pa <;>
      by_cases h3 : truthyOptStr ty <;>
      simp [get_tokens_info_params, h1, h2, h3, dlookup_dinsert_self,
            dlookup_dinsert_ne, dlookup]
  · by_cases h : truthyOptStr b.slug <;>
      simp [get_protocols_params, h, dlookup_dinsert_self, dlookup]
  · by_cases h1 : truthyOptInt c.chain_id <;> by_cases h2 : truthyStr c.routing_strategy <;>
      simp [get_wallet_info_params, h1, h2, dlookup_dinsert_self,
            dlookup_dinsert_ne, dlookup]
  · by_cases h1 : truthyOptInt c.chain_id <;> by_cases h2 : truthyStr c.routing_strategy <;>
      simp [get_wallet_info_params, h1, h2, dlookup_dinsert_self,
            dlookup_dinsert_ne, dlookup]
  · by_cases h : truthyInt d.chain_id <;>
      simp [post_bundle_info_params, h, dlookup_dinsert_self, dlookup]
  · simp [get_swap_tokens_data, dlookup]
  · simp [get_swap_tokens_data, dlookup]

/-- Claim C7 (counterexample): contrary to "the trailing conditional
re-assignments are dead code in both functions", in `approvals_wallet_token`
the conditional on `routing_strategy` adds a key the unconditional dict does
not contain: with a truthy routing strategy, removing the conditional blocks
changes the constructed params. -/
theorem approvals_conditional_not_dead_counterexample :
    approvals_wallet_token_params
        { api_token := "t", chain_id := some 1, from_address := "0xF",
          routing_strategy := "router" }
      ≠ approvals_wallet_token_params_noCond
        { api_token := "t", chain_id := some 1, from_address := "0xF",
          routing_strategy := "router" } := by
  decide

/-- Claim C7 (corrected): in `approve_wallet_token` the two trailing
conditionals are indeed dead code — the variant without them builds an
identical dict for every input; in `approvals_wallet_token` only the
`chainId` conditional is dead: the `routingStrategy` conditional appends
that key when `routing_strategy` is truthy, because the initial dict there
holds only `chainId` and `fromAddress`. -/
theorem wallet_conditionals_amended (a : ApproveArgs) (b : ApprovalsArgs) :
    approve_wallet_token_params a = approve_wallet_token_params_noCond a
  ∧ approvals_wallet_token_params b
        = (if truthyStr b.routing_strategy then
             approvals_wallet_token_params_noCond b
               ++ [("routingStrategy", PValue.s b.routing_strategy)]
           else approvals_wallet_token_params_noCond b) := by
  constructor
  · by_cases h1 : truthyOptInt a.chain_id <;> by_cases h2 : truthyStr a.routing_strategy <;>
      simp [approve_wallet_token_params, approve_wallet_token_params_noCond,
            h1, h2, dinsert]
  · by_cases h1 : truthyOptInt b.chain_id <;> by_cases h2 : truthyStr b.routing_strategy <;>
      simp [approvals_wallet_token_params, approvals_wallet_token_params_noCond,
            h1, h2, dinsert]

/-- Claim C5 (confirmed): for every binding and every input, the constructed
header dict is exactly the accept and bearer-token pair, with
`Content-Type: application/json` added on the bindings that POST a JSON
body; no constructed request omits the bearer token or the accept header. -/
theorem all_requests_carry_auth_and_accept_headers :
    (∀ (u : String) (a : ActionsArgs), (get_actions_request u a).headers
        = [("accept", "application/json"), ("Authorization", "Bearer " ++ a.api_token)])
  ∧ (∀ (u : String) (a : BundleArgs), (post_bundle_info_request u a).headers
        = [("accept", "application/json"), ("Authorization", "Bearer " ++ a.api_token),
           ("Content-Type", "application/json")])
  ∧ (∀ (u : String) (a : NetworksArgs), (get_supported_networks_request u a).headers
        = [("accept", "application/json"), ("Authorization", "Bearer " ++ a.api_token)])
  ∧ (∀ (u : String) (a : PricesArgs), (get_token_prices_request u a).headers
        = [("accept", "application/json"), ("Authorization", "Bearer " ++ a.api_token)])
  ∧ (∀ (u : String) (a : ProtocolsArgs), (get_protocols_request u a).headers
        = [("accept", "application/json"), ("Authorization", "Bearer " ++ a.api_token)])
  ∧ (∀ (u : String) (a : QuoteGetArgs), (get_shortcut_route_request u a).headers
        = [("accept", "application/json"), ("Authorization", "Bearer " ++ a.api_token)])
  ∧ (∀ (u : String) (a : QuotePostArgs), (get_shortcut_quote_request u a).headers
        = [("accept", "application/json"), ("Authorization", "Bearer " ++ a.api_token),
           ("Content-Type", "application/json")])
  ∧ (∀ (u : String) (a : SwapArgs), (get_swap_tokens_request u a).headers
        = [("accept", "application/json"), ("Authorization", "Bearer " ++ a.api_token),
           ("Content-Type", "application/json")])
  ∧ (∀ (u : String) (a : SwapArgs), (post_swap_tokens_request u a).headers
        = [("accept", "application/json"), ("Authorization", "Bearer " ++ a.api_token),
           ("Content-Type", "application/json")])
  ∧ (∀ (u : String) (a : StaticArgs), (post_static_ipor_info_request u a).headers
        = [("accept", "application/json"), ("Authorization", "Bearer " ++ a.api_token),
           ("Content-Type", "application/json")])
  ∧ (∀ (u : String) (a : TokensArgs), (get_tokens_info_request u a).headers
        = [("accept", "application/json"), ("Authorization", "Bearer " ++ a.api_token)])
  ∧ (∀ (u : String) (a : WalletArgs), (get_wallet_info_request u a).headers
        = [("accept", "application/json"), ("Authorization", "Bearer " ++ a.api_token)])
  ∧ (∀ (u : String) (a : ApproveArgs), (approve_wallet_token_request u a).headers
        = [("accept", "application/json"), ("Authorization", "Bearer " ++ a.api_token)])
  ∧ (∀ (u : String) (a : ApprovalsArgs), (approvals_wallet_token_request u a).headers
        = [("accept", "application/json"), ("Authorization", "Bearer " ++ a.api_token)])
  ∧ (∀ (u : String) (a : BalancesArgs), (get_wallet_balances_request u a).headers
        = [("accept", "application/json"), ("Authorization", "Bearer " ++ a.api_token)]) :=
  ⟨fun _ _ => rfl, fun _ _ => rfl, fun _ _ => rfl, fun _ _ => rfl, fun _ _ => rfl,
   fun _ _ => rfl, fun _ _ => rfl, fun _ _ => rfl, fun _ _ => rfl, fun _ _ => rfl,
   fun _ _ => rfl, fun _ _ => rfl, fun _ _ => rfl, fun _ _ => rfl, fun _ _ => rfl⟩

/-- Claim C9 (counterexample): the §4.1 table lists GET for the
`get_swap_tokens` binding, but the source calls `client.post`, so the
constructed request method is POST, differing from the table entry. -/
theorem get_swap_tokens_method_counterexample :
    (get_swap_tokens_request "u"
        { api_token := "t", chain_id := 1, from_address := "0xF", spender := "0xS",
          receiver := "0xR", token_in := ["0xA"], amount_in := ["1"],
          token_out := ["0xB"], routing_strategy := "router", amount_out := ["1"],
          min_amount_out := Option.none, slippage := "50", fee := ["0"],
          fee_receiver := "0xC", disable_rfqs := false, ignore_aggregators := [],
          ignore_standards := [], variable_estimates := Option.none }).method
      ≠ specTableGetSwapTokensMethod := by
  decide

/-- Claim C9 (corrected): every binding issues exactly the method and path of
the §4.1 table, except that `get_swap_tokens` issues POST (not the listed
GET) to `/shortcuts/route`; `get_wallet_balances` issues GET to
`/wallet/balances` with `chainId`, `eoaAddress` and `useEoa` all present
unconditionally, and `get_token_prices` issues GET to
`/shortcuts/route/{chain_id}/{address}` with both parameters in the path. -/
theorem endpoint_method_path_amended :
    (∀ (u : String) (a : ActionsArgs), (get_actions_request u a).method = Method.GET
        ∧ (get_actions_request u a).url = u ++ "/actions")
  ∧ (∀ (u : String) (a : BundleArgs), (post_bundle_info_request u a).method = Method.POST
        ∧ (post_bundle_info_request u a).url = u ++ "/shortcuts/bundle")
  ∧ (∀ (u : String) (a : NetworksArgs),
        (get_supported_networks_request u a).method = Method.GET
        ∧ (get_supported_networks_request u a).url = u ++ "/networks")
  ∧ (∀ (u : String) (a : PricesArgs), (get_token_prices_request u a).method = Method.GET
        ∧ (get_token_prices_request u a).url
            = u ++ "/shortcuts/route/" ++ toString a.chain_id ++ "/" ++ a.address)
  ∧ (∀ (u : String) (a : ProtocolsArgs), (get_protocols_request u a).method = Method.GET
        ∧ (get_protocols_request u a).url = u ++ "/protocols")
  ∧ (∀ (u : String) (a : QuoteGetArgs), (get_shortcut_route_request u a).method = Method.GET
        ∧ (get_shortcut_route_request u a).url = u ++ "/shortcuts/quote")
  ∧ (∀ (u : String) (a : QuotePostArgs), (get_shortcut_quote_request u a).method = Method.POST
        ∧ (get_shortcut_quote_request u a).url = u ++ "/shortcuts/quote")
  ∧ (∀ (u : String) (a : SwapArgs), (get_swap_tokens_request u a).method = Method.POST
        ∧ (get_swap_tokens_request u a).url = u ++ "/shortcuts/route")
  ∧ (∀ (u : String) (a : SwapArgs), (post_swap_tokens_request u a).method = Method.POST
        ∧ (post_swap_tokens_request u a).url = u ++ "/shortcuts/route")
  ∧ (∀ (u : String) (a : StaticArgs), (post_static_ipor_info_request u a).method = Method.POST
        ∧ (post_static_ipor_info_request u a).url = u ++ "/static/ipor")
  ∧ (∀ (u : String) (a : TokensArgs), (get_tokens_info_request u a).method = Method.GET
        ∧ (get_tokens_info_request u a).url = u ++ "/tokens")
  ∧ (∀ (u : String) (a : WalletArgs), (get_wallet_info_request u a).method = Method.GET
        ∧ (get_wallet_info_request u a).url = u ++ "/wallet")
  ∧ (∀ (u : String) (a : ApproveArgs), (approve_wallet_token_request u a).method = Method.GET
        ∧ (approve_wallet_token_request u a).url = u ++ "/wallet/approve")
  ∧ (∀ (u : String) (a : ApprovalsArgs),
        (approvals_wallet_token_request u a).method = Method.GET
        ∧ (approvals_wallet_token_request u a).url = u ++ "/wallet/approvals")
  ∧ (∀ (u : String) (a : BalancesArgs), (get_wallet_balances_request u a).method = Method.GET
        ∧ (get_wallet_balances_request u a).url = u ++ "/wallet/balances"
        ∧ (get_wallet_balances_request u a).query
            = [("chainId", PValue.i a.chain_id), ("eoaAddress", PValue.s a.eoa_address),
               ("useEoa", PValue.b a.use_eoa)]) :=
  ⟨fun _ _ => ⟨rfl, rfl⟩, fun _ _ => ⟨rfl, rfl⟩, fun _ _ => ⟨rfl, rfl⟩,
   fun _ _ => ⟨rfl, rfl⟩, fun _ _ => ⟨rfl, rfl⟩, fun _ _ => ⟨rfl, rfl⟩,
   fun _ _ => ⟨rfl, rfl⟩, fun _ _ => ⟨rfl, rfl⟩, fun _ _ => ⟨rfl, rfl⟩,
   fun _ _ => ⟨rfl, rfl⟩, fun _ _ => ⟨rfl, rfl⟩, fun _ _ => ⟨rfl, rfl⟩,
   fun _ _ => ⟨rfl, rfl⟩, fun _ _ => ⟨rfl, rfl⟩, fun _ _ => ⟨rfl, rfl, rfl⟩⟩

/-- Claim C10 (confirmed): for every binding, a second invocation with
identical arguments — run in the world state the first invocation left
behind — constructs an identical request descriptor, and the world (clock,
counter) is untouched: request construction reads no hidden mutable state,
clock, counter or nonce, so it is a deterministic function of the
arguments. -/
theorem request_construction_deterministic :
    (∀ (w : World) (u : String) (a : ActionsArgs),
        (get_actions_call ((get_actions_call w u a).2) u a).1 = (get_actions_call w u a).1
      ∧ (get_actions_call w u a).2 = w)
  ∧ (∀ (w : World) (u : String) (a : BundleArgs),
        (post_bundle_info_call ((post_bundle_info_call w u a).2) u a).1
            = (post_bundle_info_call w u a).1
      ∧ (post_bundle_info_call w u a).2 = w)
  ∧ (∀ (w : World) (u : String) (a : NetworksArgs),
        (get_supported_networks_call ((get_supported_networks_call w u a).2) u a).1
            = (get_supported_networks_call w u a).1
      ∧ (get_supported_networks_call w u a).2 = w)
  ∧ (∀ (w : World) (u : String) (a : PricesArgs),
        (get_token_prices_call ((get_token_prices_call w u a).2) u a).1
            = (get_token_prices_call w u a).1
      ∧ (get_token_prices_call w u a).2 = w)
  ∧ (∀ (w : World) (u : String) (a : ProtocolsArgs),
        (get_protocols_call ((get_protocols_call w u a).2) u a).1
            = (get_protocols_call w u a).1
      ∧ (get_protocols_call w u a).2 = w)
  ∧ (∀ (w : World) (u : String) (a : QuoteGetArgs),
        (get_shortcut_route_call ((get_shortcut_route_call w u a).2) u a).1
            = (get_shortcut_route_call w u a).1
      ∧ (get_shortcut_route_call w u a).2 = w)
  ∧ (∀ (w : World) (u : String) (a : QuotePostArgs),
        (get_shortcut_quote_call ((get_shortcut_quote_call w u a).2) u a).1
            = (get_shortcut_quote_call w u a).1
      ∧ (get_shortcut_quote_call w u a).2 = w)
  ∧ (∀ (w : World) (u : String) (a : SwapArgs),
        (get_swap_tokens_call ((get_swap_tokens_call w u a).2) u a).1
            = (get_swap_tokens_call w u a).1
      ∧ (get_swap_tokens_call w u a).2 = w)
  ∧ (∀ (w : World) (u : String) (a : SwapArgs),
        (post_swap_tokens_call ((post_swap_tokens_call w u a).2) u a).1
            = (post_swap_tokens_call w u a).1
      ∧ (post_swap_tokens_call w u a).2 = w)
  ∧ (∀ (w : World) (u : String) (a : StaticArgs),
        (post_static_ipor_info_call ((post_static_ipor_info_call w u a).2) u a).1
            = (post_static_ipor_info_call w u a).1
      ∧ (post_static_ipor_info_call w u a).2 = w)
  ∧ (∀ (w : World) (u : String) (a : TokensArgs),
        (get_tokens_info_call ((get_tokens_info_call w u a).2) u a).1
            = (get_tokens_info_call w u a).1
      ∧ (get_tokens_info_call w u a).2 = w)
  ∧ (∀ (w : World) (u : String) (a : WalletArgs),
        (get_wallet_info_call ((get_wallet_info_call w u a).2) u a).1
            = (get_wallet_info_call w u a).1
      ∧ (get_wallet_info_call w u a).2 = w)
  ∧ (∀ (w : World) (u : String) (a : ApproveArgs),
        (approve_wallet_token_call ((approve_wallet_token_call w u a).2) u a).1
            = (approve_wallet_token_call w u a).1
      ∧ (approve_wallet_token_call w u a).2 = w)
  ∧ (∀ (w : World) (u : String) (a : ApprovalsArgs),
        (approvals_wallet_token_call ((approvals_wallet_token_call w u a).2) u a).1
            = (approvals_wallet_token_call w u a).1
      ∧ (approvals_wallet_token_call w u a).2 = w)
  ∧ (∀ (w : World) (u : String) (a : BalancesArgs),
        (get_wallet_balances_call ((get_wallet_balances_call w u a).2) u a).1
            = (get_wallet_balances_call w u a).1
      ∧ (get_wallet_balances_call w u a).2 = w) :=
  ⟨fun _ _ _ => ⟨rfl, rfl⟩, fun _ _ _ => ⟨rfl, rfl⟩, fun _ _ _ => ⟨rfl, rfl⟩,
   fun _ _ _ => ⟨rfl, rfl⟩, fun _ _ _ => ⟨rfl, rfl⟩, fun _ _ _ => ⟨rfl, rfl⟩,
   fun _ _ _ => ⟨rfl, rfl⟩, fun _ _ _ => ⟨rfl, rfl⟩, fun _ _ _ => ⟨rfl, rfl⟩,
   fun _ _ _ => ⟨rfl, rfl⟩, fun _ _ _ => ⟨rfl, rfl⟩, fun _ _ _ => ⟨rfl, rfl⟩,
   fun _ _ _ => ⟨rfl, rfl⟩, fun _ _ _ => ⟨rfl, rfl⟩, fun _ _ _ => ⟨rfl, rfl⟩⟩

/-- Claim C1 (code_bug): the sources intend a non-2xx response to raise an
Exception whose message carries the numeric status code (the handler text is
"API request failed with status code: " followed by the code), but the
handler reads `e.status_code`, an attribute `httpx.HTTPStatusError` does not
define, so at a 404 or 500 response the caller instead receives an
AttributeError whose message contains no digit at all; the transport half of
the claim does hold (a connection failure raises an Exception carrying the
diagnostic, never returned as a success value). -/
theorem statusError_attribute_slip_at_404 :
    get_actions_handle (HttpOutcome.response 404 (some "x"))
        = CallOutcome.raised (PyExc.attributeError statusAttrMsg)
  ∧ get_tokens_info_handle (HttpOutcome.response 500 (some "x"))
        = CallOutcome.raised (PyExc.attributeError statusAttrMsg)
  ∧ statusAttrMsg.toList.all (fun c => !c.isDigit) = true
  ∧ get_actions_handle (HttpOutcome.transportFailure "Connection refused")
        = CallOutcome.raised
            (PyExc.genericException "An HTTP error occurred: Connection refused")
  ∧ get_tokens_info_handle (HttpOutcome.transportFailure "Connection refused")
        = CallOutcome.raised
            (PyExc.genericException "An HTTP error occurred: Connection refused") := by
  refine ⟨?_, ?_, by decide, ?_, ?_⟩ <;> decide

/-- Claim C2 (confirmed): for every binding — every instantiation of the
shared try/except block, with or without a catch-all clause — a non-2xx
response makes the `httpx.HTTPStatusError` handler evaluate `e.status_code`,
an attribute that exception class does not define, so the handler raises
AttributeError, which no sibling except clause catches; the caller receives
an AttributeError whose message contains no digit, hence no numeric HTTP
status code. -/
theorem nonSuccess_status_raises_attributeError (catchAll : Option String)
    (status : Nat) (json : Option String) (h : is_success status = false) :
    handleResponse catchAll (HttpOutcome.response status json)
        = CallOutcome.raised (PyExc.attributeError statusAttrMsg)
  ∧ get_actions_handle (HttpOutcome.response status json)
        = CallOutcome.raised (PyExc.attributeError statusAttrMsg)
  ∧ get_shortcut_route_handle (HttpOutcome.response status json)
        = CallOutcome.raised (PyExc.attributeError statusAttrMsg)
  ∧ get_tokens_info_handle (HttpOutcome.response status json)
        = CallOutcome.raised (PyExc.attributeError statusAttrMsg)
  ∧ statusAttrMsg.toList.all (fun c => !c.isDigit) = true := by
  refine ⟨?_, ?_, ?_, ?_, by decide⟩ <;>
    simp [get_actions_handle, get_shortcut_route_handle, get_tokens_info_handle,
          handleResponse, h, hasAttr_status_code_false]

theorem nonSuccess_status_raises_attributeError_witness :
    is_success 404 = false
  ∧ (handleResponse Option.none (HttpOutcome.response 404 (some "x"))
        = CallOutcome.raised (PyExc.attributeError statusAttrMsg)
     ∧ get_actions_handle (HttpOutcome.response 404 (some "x"))
        = CallOutcome.raised (PyExc.attributeError statusAttrMsg)
     ∧ get_shortcut_route_handle (HttpOutcome.response 404 (some "x"))
        = CallOutcome.raised (PyExc.attributeError statusAttrMsg)
     ∧ get_tokens_info_handle (HttpOutcome.response 404 (some "x"))
        = CallOutcome.raised (PyExc.attributeError statusAttrMsg)
     ∧ statusAttrMsg.toList.all (fun c => !c.isDigit) = true) :=
  ⟨by decide,
   nonSuccess_status_raises_attributeError Option.none 404 (some "x") (by decide)⟩

/-- Claim C6 (confirmed): a JSON-decoding failure on a 2xx response — an
exception outside the `httpx.HTTPError` hierarchy raised inside the try
block — makes `get_actions`, `get_swap_tokens`, `get_shortcut_route` and
`get_wallet_info` return a formatted error string as their normal result
value, while `get_tokens_info`, `get_supported_networks`, `post_bundle_info`
and `post_static_ipor_info` have no catch-all clause and propagate the
exception. -/
theorem catchAll_vs_propagating_bindings :
    get_actions_handle (HttpOutcome.response 200 Option.none)
        = CallOutcome.returnedString ("error getting the enso actions " ++ jsonDecodeMsg)
  ∧ get_swap_tokens_handle (HttpOutcome.response 200 Option.none)
        = CallOutcome.returnedString ("error getting swap route " ++ jsonDecodeMsg)
  ∧ get_shortcut_route_handle (HttpOutcome.response 200 Option.none)
        = CallOutcome.returnedString ("error getting swap route " ++ jsonDecodeMsg)
  ∧ get_wallet_info_handle (HttpOutcome.response 200 Option.none)
        = CallOutcome.returnedString ("error getting the enso wallet " ++ jsonDecodeMsg)
  ∧ get_tokens_info_handle (HttpOutcome.response 200 Option.none)
        = CallOutcome.raised (PyExc.jsonDecodeError jsonDecodeMsg)
  ∧ get_supported_networks_handle (HttpOutcome.response 200 Option.none)
        = CallOutcome.raised (PyExc.jsonDecodeError jsonDecodeMsg)
  ∧ post_bundle_info_handle (HttpOutcome.response 200 Option.none)
        = CallOutcome.raised (PyExc.jsonDecodeError jsonDecodeMsg)
  ∧ post_static_ipor_info_handle (HttpOutcome.response 200 Option.none)
        = CallOutcome.raised (PyExc.jsonDecodeError jsonDecodeMsg) := by
  refine ⟨?_, ?_, ?_, ?_, ?_, ?_, ?_, ?_⟩ <;> decide
